import Mathlib

/-!
# Shallow embedding of the hibarr-crm-event-handler webhook pipeline

This file embeds, in Lean 4, the parts of the TypeScript repository that the
verified claims are about:

* the CRM webhook payload and job data types (`src/queues/crm/crm.types.ts`),
* the BullMQ job id / deduplicating enqueue
  (`enqueueCRMWebhookJob`, `QueueService.enqueue`),
* the webhook receipt store (`WebhookReceiptService.createWebhook`,
  `BaseService.updateById`, the `webhookReceiptSchema`),
* the gateway controller (`WebhookController.create`) together with the CRM
  provider's extraction/validation/handle methods (`CRMProvider`),
* the queue processor (`processCRMWebhook`, `handleDealCreatedEvent`,
  `handleDealUpdatedEvent`) and the downstream fan-out
  (`DownstreamProvider.processQualifiedDeal` / `processCommittedDeal` /
  `sendMetaConversionEvent` / `sendPropertyEmail`).

Mongoose persistence is modelled as a list of receipt records with a
next-fresh-id counter; BullMQ is modelled as a list of pending jobs in which
`enqueue` with an already-present job id is a no-op (BullMQ's jobId
deduplication).  The external downstream HTTP calls (Meta CAPI, Brevo) are
modelled by a `DispatcherBehavior` record saying whether each call fails; a
possible enqueue-time Redis failure is modelled by an `enqueueFails` flag
passed to the gateway step.
-/

namespace CrmEventHandler

/-- The source function `WebhookStatus` enum from `webhook-receipt.interface.ts`. -/
inductive WebhookStatus where
  | pending
  | processed
  | failed
deriving DecidableEq, Repr

/-- The source function `CrmWebhookCustomer` from `crm.types.ts`. -/
structure CrmWebhookCustomer where
  contactId : String
  firstName : String
  lastName : String
  email : String
  phoneNumber : String
deriving DecidableEq, Repr

/-- The source function `CrmWebhookDealDetails` from `crm.types.ts`.  `dealValue` is a JS number
used only as opaque data; we embed it as `Int`. -/
structure CrmWebhookDealDetails where
  dealName : String
  dealValue : Int
  currency : String
  status : String
  closingDate : String
deriving DecidableEq, Repr

/-- The source function `CrmWebhookPropertyInformation` from `crm.types.ts`. -/
structure CrmWebhookPropertyInformation where
  propertyId : String
  address : String
  city : String
  state : String
  zipCode : String
  propertyType : String
  squareFootage : Int
deriving DecidableEq, Repr

/-- The source function `CrmWebhookData` from `crm.types.ts`. -/
structure CrmWebhookData where
  dealId : String
  customer : CrmWebhookCustomer
  dealDetails : CrmWebhookDealDetails
  propertyInformation : CrmWebhookPropertyInformation
deriving DecidableEq, Repr

/-- The source function `CrmWebhookPayload` from `crm.types.ts`. -/
structure CrmWebhookPayload where
  status : String
  message : String
  data : CrmWebhookData
deriving DecidableEq, Repr

/-- The source function `CrmWebhookJobData` from `crm.types.ts`: the data carried by one queued
job. -/
structure CrmWebhookJobData where
  reference : String
  event : String
  payload : CrmWebhookPayload
deriving DecidableEq, Repr

/-- ASCII lowercase of one character, as `Char.toLower` computes it:
`A`–`Z` (65–90) shifts by 32, everything else is unchanged. -/
def asciiLower (c : Char) : Char :=
  if 65 ≤ c.toNat ∧ c.toNat ≤ 90 then Char.ofNat (c.toNat + 32) else c

/-- Model of `toLocaleLowerCase` on the status strings in play (all ASCII): lowercase
every character. -/
def strToLower (s : String) : String :=
  String.mk (s.data.map asciiLower)

/-- The BullMQ `jobId` computed by `enqueueCRMWebhookJob`:
`` `${data.event}_${data.reference}_${data.payload.data.dealDetails.status.toLocaleLowerCase()}` ``. -/
def jobKey (d : CrmWebhookJobData) : String :=
  d.event ++ "_" ++ d.reference ++ "_" ++ strToLower d.payload.data.dealDetails.status

/-- The queue state: the pending jobs, in arrival order.  BullMQ retains each
job under its `jobId`. -/
abbrev QueueState := List CrmWebhookJobData

/-- The source function `QueueService.enqueue` → `queue.add('process', data, { jobId, ... })` with
the deduplicating `jobId` supplied by `enqueueCRMWebhookJob`: if a job with
the same id is already held by the queue the call is a no-op returning the
existing job, otherwise the job is appended. -/
def enqueueCRMWebhookJob (q : QueueState) (d : CrmWebhookJobData) : QueueState :=
  if q.any (fun j => jobKey j == jobKey d) then q else q ++ [d]

/-- The two downstream integrations reachable from the processor:
`MetaCAPIProvider.sendConversionEvent` (with its Meta event name) and
`BrevoProvider.sendPropertyDetailsEmail`. -/
inductive DownstreamAction where
  | metaConversion (eventName : String)
  | brevoEmail
deriving DecidableEq, Repr

/-- Environment model of the two external downstream services: whether each
call, when issued, fails (throws). -/
structure DispatcherBehavior where
  metaFails : Bool
  brevoFails : Bool
deriving DecidableEq, Repr

/-- The source function `DownstreamProvider.sendMetaConversionEvent`: issues the Meta CAPI call,
and catches any error ("Don't throw - we want to continue processing even if
Meta CAPI fails").  Returns the list of downstream calls issued; never
`Except.error`. -/
def sendMetaConversionEvent (beh : DispatcherBehavior) (eventName : String) :
    Except String (List DownstreamAction) :=
  match (if beh.metaFails then Except.error "meta" else Except.ok ()) with
  | Except.ok _ => Except.ok [DownstreamAction.metaConversion eventName]
  | Except.error _ => Except.ok [DownstreamAction.metaConversion eventName]

/-- The source function `DownstreamProvider.sendPropertyEmail`: issues the Brevo call, catching
any error ("Don't throw - we want to continue processing even if email
fails"). -/
def sendPropertyEmail (beh : DispatcherBehavior) :
    Except String (List DownstreamAction) :=
  match (if beh.brevoFails then Except.error "brevo" else Except.ok ()) with
  | Except.ok _ => Except.ok [DownstreamAction.brevoEmail]
  | Except.error _ => Except.ok [DownstreamAction.brevoEmail]

/-- The source function `DownstreamProvider.processQualifiedDeal`: sends the Meta conversion event
with event name `Lead`; its try/catch re-throws, which in `Except` is error
propagation. -/
def processQualifiedDeal (beh : DispatcherBehavior) :
    Except String (List DownstreamAction) := do
  let a ← sendMetaConversionEvent beh "Lead"
  pure a

/-- The source function `DownstreamProvider.processCommittedDeal`: sends the Meta conversion event
with event name `Purchase`, then the Brevo property email; its try/catch
re-throws. -/
def processCommittedDeal (beh : DispatcherBehavior) :
    Except String (List DownstreamAction) := do
  let a ← sendMetaConversionEvent beh "Purchase"
  let b ← sendPropertyEmail beh
  pure (a ++ b)

/-- The source function `handleDealCreatedEvent` in `crm.processor.ts`: switch on
`payload.data.dealDetails.status`; the default branch logs a warning and is a
no-op. -/
def handleDealCreatedEvent (beh : DispatcherBehavior) (payload : CrmWebhookPayload) :
    Except String (List DownstreamAction) :=
  match payload.data.dealDetails.status with
  | "Qualified" => processQualifiedDeal beh
  | "Committed" => processCommittedDeal beh
  | _ => Except.ok []

/-- The source function `handleDealUpdatedEvent` in `crm.processor.ts`: same switch as
`handleDealCreatedEvent` (only the log lines differ). -/
def handleDealUpdatedEvent (beh : DispatcherBehavior) (payload : CrmWebhookPayload) :
    Except String (List DownstreamAction) :=
  match payload.data.dealDetails.status with
  | "Qualified" => processQualifiedDeal beh
  | "Committed" => processCommittedDeal beh
  | _ => Except.ok []

/-- The source function `processCRMWebhook` in `crm.processor.ts`: switch on the job's event; the
default branch logs `Unhandled CRM webhook event` and is a no-op; on success
the function returns `{ success: true, jobId }`.  We return the list of
downstream calls issued; an `Except.error` corresponds to the processor
re-throwing (`throw error; // Let BullMQ handle retries`). -/
def processCRMWebhook (beh : DispatcherBehavior) (job : CrmWebhookJobData) :
    Except String (List DownstreamAction) :=
  match job.event with
  | "deal_created" => handleDealCreatedEvent beh job.payload
  | "deal_updated" => handleDealUpdatedEvent beh job.payload
  | _ => Except.ok []

/-! ## Receipt store and gateway -/

/-- One persisted webhook receipt (`webhookReceiptSchema` /
`IWebhookReceiptAttribute`): provider, event, reference, the payload snapshot
taken at creation, and the processing status.  The stored payload's `body` is
the part the pipeline reads back (`handleWebhookRequest` destructures
`payload.body`); headers/params are opaque and omitted.  `id` is the Mongo
`_id`. -/
structure Receipt where
  id : Nat
  provider : String
  event : String
  reference : String
  payloadBody : CrmWebhookPayload
  status : WebhookStatus
deriving DecidableEq, Repr

/-- The persistent + queue state threaded through the gateway and the worker:
the receipt collection, a fresh-id counter for Mongo ids, and the BullMQ
queue. -/
structure SystemState where
  receipts : List Receipt
  nextId : Nat
  queue : QueueState
deriving DecidableEq, Repr

/-- The empty deployment: no receipts, no jobs. -/
def initialState : SystemState := { receipts := [], nextId := 0, queue := [] }

/-- Lookup `findOne({ provider, reference })` over the receipt collection. -/
def findOneReceipt (st : SystemState) (provider reference : String) : Option Receipt :=
  st.receipts.find? (fun r => r.provider == provider && r.reference == reference)

/-- The source function `BaseService.updateById` as used by the controller: set the status of the
record with the given id, leaving every other field and record unchanged. -/
def updateStatusById (st : SystemState) (id : Nat) (s : WebhookStatus) : SystemState :=
  { st with receipts := st.receipts.map (fun r => if r.id == id then { r with status := s } else r) }

/-- The source function `WebhookReceiptService.createWebhook`: look up the `(provider, reference)`
pair; if a record exists return it with `isNew = false` (the stored record,
payload and all, is returned unchanged); otherwise insert a new PENDING
record built from the incoming request and return it with `isNew = true`. -/
def createWebhook (st : SystemState) (provider event reference : String)
    (body : CrmWebhookPayload) : Receipt × Bool × SystemState :=
  match findOneReceipt st provider reference with
  | some existingRecord => (existingRecord, false, st)
  | none =>
      let newRecord : Receipt :=
        { id := st.nextId, provider := provider, event := event,
          reference := reference, payloadBody := body,
          status := WebhookStatus.pending }
      (newRecord, true, { st with receipts := st.receipts ++ [newRecord], nextId := st.nextId + 1 })

/-- One inbound HTTP request as the CRM provider reads it: the `:provider`
path param, the `x-api-key` and `x-event` headers, and the JSON body (absent
or not shaped like a CRM payload ↦ `none`). -/
structure GatewayRequest where
  provider : String
  apiKey : Option String
  eventHeader : Option String
  body : Option CrmWebhookPayload
deriving DecidableEq, Repr

/-- The source function `CRMProvider.validateWebhookRequest`: the `x-api-key` header must equal
the configured API key. -/
def validateWebhookRequest (cfgApiKey : String) (req : GatewayRequest) : Bool :=
  req.apiKey == some cfgApiKey

/-- The source function `CRMProvider.getEventFromWebhookRequest`: read the `x-event` header;
throw `BadRequestError` (HTTP 400) if it is absent or empty (JS falsiness of
`''`). -/
def getEventFromWebhookRequest (req : GatewayRequest) : Except Nat String :=
  match req.eventHeader with
  | none => Except.error 400
  | some e => if e = "" then Except.error 400 else Except.ok e

/-- The source function `CRMProvider.getReferenceFromWebhookRequest`: read `req.body?.data?.dealId`;
throw `BadRequestError` (HTTP 400) if the body is absent or the dealId is
empty. -/
def getReferenceFromWebhookRequest (req : GatewayRequest) : Except Nat String :=
  match req.body with
  | none => Except.error 400
  | some b => if b.data.dealId = "" then Except.error 400 else Except.ok b.data.dealId

/-- The source function `CRMProvider.handleWebhookRequest`: enqueue a CRM job built from the
*stored receipt* — its `reference`, its `event` and its persisted
`payload.body`. -/
def handleWebhookRequest (st : SystemState) (webhookReceipt : Receipt) : SystemState :=
  let jobData : CrmWebhookJobData :=
    { reference := webhookReceipt.reference, event := webhookReceipt.event,
      payload := webhookReceipt.payloadBody }
  { st with queue := enqueueCRMWebhookJob st.queue jobData }

/-- HTTP outcome of the gateway, as the controller and the error middleware
produce it: `sendStatus 200`, `sendStatus 202`, or an error code via
`next(error)` (for `BadRequestError`, a 400 response). -/
inductive GatewayResult where
  | ok200
  | accepted202
  | clientError (code : Nat)
deriving DecidableEq, Repr

/-- The source function `WebhookController.create`, one inbound delivery end to end:
provider-registry lookup (`getProviderInstance` throws `BadRequestError` for
anything but `crm`), `validateWebhookRequest` (202 on failure), event and
reference extraction (400 and nothing persisted on failure), the
`createWebhook` upsert, then — only when the record is new or its status is
not PROCESSED — `handleWebhookRequest` (the enqueue) followed by
`updateById(status := PROCESSED)`, with a catch that sets the status to
FAILED when the enqueue throws (`enqueueFails` models a Redis failure).
Always answers 200 once extraction succeeded. -/
def webhookControllerCreate (cfgApiKey : String) (enqueueFails : Bool)
    (st : SystemState) (req : GatewayRequest) : GatewayResult × SystemState :=
  if req.provider ≠ "crm" then (GatewayResult.clientError 400, st)
  else if ¬ validateWebhookRequest cfgApiKey req then (GatewayResult.accepted202, st)
  else
    match getEventFromWebhookRequest req with
    | Except.error c => (GatewayResult.clientError c, st)
    | Except.ok event =>
      match getReferenceFromWebhookRequest req with
      | Except.error c => (GatewayResult.clientError c, st)
      | Except.ok reference =>
        match req.body with
        | none => (GatewayResult.clientError 400, st)
        | some b =>
          let res := createWebhook st req.provider event reference b
          let webhook := res.1
          let isNew := res.2.1
          let st1 := res.2.2
          if isNew ∨ webhook.status ≠ WebhookStatus.processed then
            if enqueueFails then
              (GatewayResult.ok200, updateStatusById st1 webhook.id WebhookStatus.failed)
            else
              (GatewayResult.ok200,
                updateStatusById (handleWebhookRequest st1 webhook) webhook.id WebhookStatus.processed)
          else
            (GatewayResult.ok200, st1)

/-- One worker pull (`Worker` + `processCRMWebhook`): consume the next queued
job and run the processor on it.  The processor never touches the receipt
collection. -/
def workerStep (beh : DispatcherBehavior) (st : SystemState) :
    SystemState × Option (Except String (List DownstreamAction)) :=
  match st.queue with
  | [] => (st, none)
  | job :: rest => ({ st with queue := rest }, some (processCRMWebhook beh job))

/-! ## Receipt counting (for the uniqueness invariant) -/

/-- The `(provider, reference)` identity predicate used by
`createWebhook`'s `findOne({ provider, reference })`. -/
def receiptMatches (provider reference : String) (r : Receipt) : Bool :=
  r.provider == provider && r.reference == reference

/-- Number of receipt rows stored for one `(provider, reference)` pair. -/
def countFor (st : SystemState) (provider reference : String) : Nat :=
  (st.receipts.filter (receiptMatches provider reference)).length

/-! ## Concrete sample data (used by witnesses and counterexamples) -/

/-- A concrete CRM customer block. -/
def sampleCustomer : CrmWebhookCustomer :=
  { contactId := "CT-1", firstName := "Ada", lastName := "Lovelace",
    email := "ada@example.com", phoneNumber := "+1-555-0100" }

/-- A concrete CRM property-information block. -/
def samplePropertyInformation : CrmWebhookPropertyInformation :=
  { propertyId := "P-1", address := "1 Main St", city := "Springfield",
    state := "TX", zipCode := "00001", propertyType := "house", squareFootage := 100 }

/-- Deal details with a given business status. -/
def dealDetailsWith (status : String) : CrmWebhookDealDetails :=
  { dealName := "Deal One", dealValue := 1000, currency := "USD",
    status := status, closingDate := "2026-01-01" }

/-- A concrete CRM webhook body with a given deal reference and status. -/
def payloadWith (dealId status : String) : CrmWebhookPayload :=
  { status := "success", message := "ok",
    data := { dealId := dealId, customer := sampleCustomer,
              dealDetails := dealDetailsWith status,
              propertyInformation := samplePropertyInformation } }

/-- A well-formed inbound request to the CRM webhook route. -/
def requestWith (apiKey event dealId status : String) : GatewayRequest :=
  { provider := "crm", apiKey := some apiKey, eventHeader := some event,
    body := some (payloadWith dealId status) }

/-- State after the spec's first example delivery
(`event=deal_created, reference=D-1, status=Qualified` into an empty
deployment). -/
def stateAfterFirstDelivery : SystemState :=
  (webhookControllerCreate "k" false initialState
    (requestWith "k" "deal_created" "D-1" "Qualified")).2

/-- State after the spec's second example delivery
(`event=deal_updated, reference=D-1, status=Committed`) on top of
`stateAfterFirstDelivery`. -/
def stateAfterSecondDelivery : SystemState :=
  (webhookControllerCreate "k" false stateAfterFirstDelivery
    (requestWith "k" "deal_updated" "D-1" "Committed")).2

/-- A receipt for reference `D-1` already in status PROCESSED. -/
def processedReceiptD1 : Receipt :=
  { id := 0, provider := "crm", event := "deal_created", reference := "D-1",
    payloadBody := payloadWith "D-1" "Qualified", status := WebhookStatus.processed }

/-- A deployment holding only `processedReceiptD1`, with an empty queue. -/
def stateWithProcessedD1 : SystemState :=
  { receipts := [processedReceiptD1], nextId := 1, queue := [] }

/-- The job the first example delivery enqueues. -/
def jobD1Qualified : CrmWebhookJobData :=
  { reference := "D-1", event := "deal_created", payload := payloadWith "D-1" "Qualified" }

/-- Same `(event, reference, status)` triple as `jobD1Qualified` but a
different message field, to exercise key determinism. -/
def jobD1QualifiedAlt : CrmWebhookJobData :=
  { reference := "D-1", event := "deal_created",
    payload := { payloadWith "D-1" "Qualified" with message := "resent" } }

/-- Job `jobD1Qualified` with the status cased differently. -/
def jobD1QualifiedUpper : CrmWebhookJobData :=
  { reference := "D-1", event := "deal_created", payload := payloadWith "D-1" "QUALIFIED" }

/-- An authenticated request whose body is missing, so the reference
(`body.data.dealId`) cannot be extracted. -/
def requestMissingReference : GatewayRequest :=
  { provider := "crm", apiKey := some "k", eventHeader := some "deal_created",
    body := none }

/-- A whole inbound run: fold a list of `(enqueueFails, request)` deliveries
through the gateway. -/
def runDeliveries (cfgApiKey : String) (deliveries : List (Bool × GatewayRequest))
    (st : SystemState) : SystemState :=
  deliveries.foldl (fun s d => (webhookControllerCreate cfgApiKey d.1 s d.2).2) st

/-! ## Helper lemmas -/

/-- A failing Meta CAPI call is caught inside `sendMetaConversionEvent`: the
call is always issued and the function never propagates an error. -/
theorem sendMetaConversionEvent_ok (beh : DispatcherBehavior) (eventName : String) :
    sendMetaConversionEvent beh eventName =
      Except.ok [DownstreamAction.metaConversion eventName] := by
  unfold sendMetaConversionEvent
  cases h : beh.metaFails <;> simp [h]

/-- A failing Brevo call is caught inside `sendPropertyEmail`. -/
theorem sendPropertyEmail_ok (beh : DispatcherBehavior) :
    sendPropertyEmail beh = Except.ok [DownstreamAction.brevoEmail] := by
  unfold sendPropertyEmail
  cases h : beh.brevoFails <;> simp [h]

/-- Running `processQualifiedDeal` always succeeds having issued exactly the Meta
`Lead` conversion call. -/
theorem processQualifiedDeal_ok (beh : DispatcherBehavior) :
    processQualifiedDeal beh = Except.ok [DownstreamAction.metaConversion "Lead"] := by
  unfold processQualifiedDeal
  rw [sendMetaConversionEvent_ok]
  rfl

/-- Running `processCommittedDeal` always succeeds having issued the Meta `Purchase`
conversion call and the Brevo email, in that order, whatever fails. -/
theorem processCommittedDeal_ok (beh : DispatcherBehavior) :
    processCommittedDeal beh =
      Except.ok [DownstreamAction.metaConversion "Purchase", DownstreamAction.brevoEmail] := by
  unfold processCommittedDeal
  rw [sendMetaConversionEvent_ok, sendPropertyEmail_ok]
  rfl

/-- An unrecognized status makes `handleDealCreatedEvent` a successful
no-op. -/
theorem handleDealCreatedEvent_unknown (beh : DispatcherBehavior)
    (payload : CrmWebhookPayload)
    (h1 : payload.data.dealDetails.status ≠ "Qualified")
    (h2 : payload.data.dealDetails.status ≠ "Committed") :
    handleDealCreatedEvent beh payload = Except.ok [] := by
  unfold handleDealCreatedEvent
  split
  next h => exact absurd h h1
  next h => exact absurd h h2
  next => rfl

/-- An unrecognized status makes `handleDealUpdatedEvent` a successful
no-op. -/
theorem handleDealUpdatedEvent_unknown (beh : DispatcherBehavior)
    (payload : CrmWebhookPayload)
    (h1 : payload.data.dealDetails.status ≠ "Qualified")
    (h2 : payload.data.dealDetails.status ≠ "Committed") :
    handleDealUpdatedEvent beh payload = Except.ok [] := by
  unfold handleDealUpdatedEvent
  split
  next h => exact absurd h h1
  next h => exact absurd h h2
  next => rfl

/-- A job whose `(event, status)` pair is outside the mapped combinations is
a successful no-op with zero downstream calls. -/
theorem processCRMWebhook_unmapped (beh : DispatcherBehavior) (job : CrmWebhookJobData)
    (h : ¬ ((job.event = "deal_created" ∨ job.event = "deal_updated") ∧
            (job.payload.data.dealDetails.status = "Qualified" ∨
             job.payload.data.dealDetails.status = "Committed"))) :
    processCRMWebhook beh job = Except.ok [] := by
  unfold processCRMWebhook
  split
  next hev =>
    refine handleDealCreatedEvent_unknown beh job.payload ?_ ?_
    · intro hq; exact h ⟨Or.inl hev, Or.inl hq⟩
    · intro hc; exact h ⟨Or.inl hev, Or.inr hc⟩
  next hev =>
    refine handleDealUpdatedEvent_unknown beh job.payload ?_ ?_
    · intro hq; exact h ⟨Or.inr hev, Or.inl hq⟩
    · intro hc; exact h ⟨Or.inr hev, Or.inr hc⟩
  next => rfl

/-! ## Claim theorems: processor and queue key -/

/-- C5: the job dedup key is a deterministic pure function of
`(event, reference, business-status snapshot)` only — two job submissions
agreeing on these three values get the same key regardless of every other
payload field, and the second of two such enqueue calls is a no-op (the queue
does not change, so its depth does not grow). -/
theorem C5_deterministic_key_coalescing :
    (∀ d1 d2 : CrmWebhookJobData, d1.event = d2.event → d1.reference = d2.reference →
      d1.payload.data.dealDetails.status = d2.payload.data.dealDetails.status →
      jobKey d1 = jobKey d2) ∧
    (∀ (q : QueueState) (d1 d2 : CrmWebhookJobData),
      d1.event = d2.event → d1.reference = d2.reference →
      d1.payload.data.dealDetails.status = d2.payload.data.dealDetails.status →
      enqueueCRMWebhookJob (enqueueCRMWebhookJob q d1) d2 = enqueueCRMWebhookJob q d1) := by
  have hkey : ∀ d1 d2 : CrmWebhookJobData, d1.event = d2.event → d1.reference = d2.reference →
      d1.payload.data.dealDetails.status = d2.payload.data.dealDetails.status →
      jobKey d1 = jobKey d2 := by
    intro d1 d2 he hr hs
    unfold jobKey
    rw [he, hr, hs]
  refine ⟨hkey, ?_⟩
  intro q d1 d2 he hr hs
  have hk := hkey d1 d2 he hr hs
  unfold enqueueCRMWebhookJob
  rw [← hk]
  by_cases hq : q.any (fun j => jobKey j == jobKey d1)
  · simp [hq]
  · simp only [hq, if_false, Bool.false_eq_true]
    have : (q ++ [d1]).any (fun j => jobKey j == jobKey d1) = true := by
      simp [List.any_append]
    simp [this]

/-- C5 witness: two submissions of reference `D-1`, event `deal_created`,
status `Qualified` that differ in another payload field share one key, and
the second enqueue onto an empty queue changes nothing. -/
theorem C5_deterministic_key_coalescing_witness :
    jobKey jobD1Qualified = jobKey jobD1QualifiedAlt ∧
    enqueueCRMWebhookJob (enqueueCRMWebhookJob [] jobD1Qualified) jobD1QualifiedAlt =
      enqueueCRMWebhookJob [] jobD1Qualified :=
  ⟨C5_deterministic_key_coalescing.1 jobD1Qualified jobD1QualifiedAlt rfl rfl rfl,
   C5_deterministic_key_coalescing.2 [] jobD1Qualified jobD1QualifiedAlt rfl rfl rfl⟩

/-- C6: in the Committed mapping — the mapping that invokes both downstream
dispatchers — any combination of dispatcher failures is caught at the point
of invocation: both the Meta conversion call and the Brevo email call are
issued and the processor still returns success. -/
theorem C6_downstream_isolation (beh : DispatcherBehavior) (reference : String)
    (payload : CrmWebhookPayload) (event : String)
    (hev : event = "deal_created" ∨ event = "deal_updated")
    (hst : payload.data.dealDetails.status = "Committed") :
    processCRMWebhook beh { reference := reference, event := event, payload := payload } =
      Except.ok [DownstreamAction.metaConversion "Purchase", DownstreamAction.brevoEmail] := by
  rcases hev with h | h <;> subst h <;>
    simp [processCRMWebhook, handleDealCreatedEvent, handleDealUpdatedEvent, hst,
      processCommittedDeal_ok]

/-- C6 witness: with the Meta CAPI dispatcher made to fail, a Committed job
still issues both dispatcher calls and completes successfully. -/
theorem C6_downstream_isolation_witness :
    processCRMWebhook { metaFails := true, brevoFails := false }
      { reference := "D-1", event := "deal_updated", payload := payloadWith "D-1" "Committed" } =
      Except.ok [DownstreamAction.metaConversion "Purchase", DownstreamAction.brevoEmail] :=
  C6_downstream_isolation { metaFails := true, brevoFails := false } "D-1"
    (payloadWith "D-1" "Committed") "deal_updated" (Or.inr rfl) rfl

/-- C7: a job whose `(event type, business status)` pair is outside the known
mappings is a successful no-op: the processor returns success, issues zero
downstream calls and raises nothing. -/
theorem C7_unknown_combination_noop (beh : DispatcherBehavior) (job : CrmWebhookJobData)
    (h : ¬ ((job.event = "deal_created" ∨ job.event = "deal_updated") ∧
            (job.payload.data.dealDetails.status = "Qualified" ∨
             job.payload.data.dealDetails.status = "Committed"))) :
    processCRMWebhook beh job = Except.ok [] :=
  processCRMWebhook_unmapped beh job h

/-- C7 witness: an unmapped event (`deal_deleted`) is processed as a
successful no-op. -/
theorem C7_unknown_combination_noop_witness :
    processCRMWebhook { metaFails := false, brevoFails := false }
      { reference := "D-1", event := "deal_deleted", payload := payloadWith "D-1" "Qualified" } =
      Except.ok [] :=
  C7_unknown_combination_noop { metaFails := false, brevoFails := false }
    { reference := "D-1", event := "deal_deleted", payload := payloadWith "D-1" "Qualified" }
    (by decide)

/-- C8: `deal_created` and `deal_updated` dispatch identically for every
payload; status `Qualified` issues exactly the Meta conversion, status
`Committed` exactly the Meta conversion plus the Brevo email, under either
event type. -/
theorem C8_event_type_does_not_change_actions :
    (∀ (beh : DispatcherBehavior) (reference : String) (payload : CrmWebhookPayload),
      processCRMWebhook beh { reference := reference, event := "deal_created", payload := payload } =
      processCRMWebhook beh { reference := reference, event := "deal_updated", payload := payload }) ∧
    (∀ (beh : DispatcherBehavior) (reference : String) (payload : CrmWebhookPayload),
      payload.data.dealDetails.status = "Qualified" →
      processCRMWebhook beh { reference := reference, event := "deal_created", payload := payload } =
        Except.ok [DownstreamAction.metaConversion "Lead"]) ∧
    (∀ (beh : DispatcherBehavior) (reference : String) (payload : CrmWebhookPayload),
      payload.data.dealDetails.status = "Committed" →
      processCRMWebhook beh { reference := reference, event := "deal_created", payload := payload } =
        Except.ok [DownstreamAction.metaConversion "Purchase", DownstreamAction.brevoEmail]) := by
  refine ⟨?_, ?_, ?_⟩
  · intro beh reference payload
    show handleDealCreatedEvent beh payload = handleDealUpdatedEvent beh payload
    unfold handleDealCreatedEvent handleDealUpdatedEvent
    rfl
  · intro beh reference payload hst
    simp [processCRMWebhook, handleDealCreatedEvent, hst, processQualifiedDeal_ok]
  · intro beh reference payload hst
    simp [processCRMWebhook, handleDealCreatedEvent, hst, processCommittedDeal_ok]

/-- C8 witness: concrete `D-1` payloads — created/updated agree, Qualified
fires the conversion call, Committed fires conversion plus email. -/
theorem C8_event_type_does_not_change_actions_witness :
    (processCRMWebhook { metaFails := false, brevoFails := false }
        { reference := "D-1", event := "deal_created", payload := payloadWith "D-1" "Qualified" } =
      processCRMWebhook { metaFails := false, brevoFails := false }
        { reference := "D-1", event := "deal_updated", payload := payloadWith "D-1" "Qualified" }) ∧
    (processCRMWebhook { metaFails := false, brevoFails := false }
        { reference := "D-1", event := "deal_created", payload := payloadWith "D-1" "Qualified" } =
      Except.ok [DownstreamAction.metaConversion "Lead"]) ∧
    (processCRMWebhook { metaFails := false, brevoFails := false }
        { reference := "D-1", event := "deal_created", payload := payloadWith "D-1" "Committed" } =
      Except.ok [DownstreamAction.metaConversion "Purchase", DownstreamAction.brevoEmail]) :=
  ⟨C8_event_type_does_not_change_actions.1 { metaFails := false, brevoFails := false } "D-1"
      (payloadWith "D-1" "Qualified"),
   C8_event_type_does_not_change_actions.2.1 { metaFails := false, brevoFails := false } "D-1"
      (payloadWith "D-1" "Qualified") rfl,
   C8_event_type_does_not_change_actions.2.2 { metaFails := false, brevoFails := false } "D-1"
      (payloadWith "D-1" "Committed") rfl⟩

/-- C10: the dedup key lowercases the status — submissions whose statuses
agree up to ASCII case share one key — while the processor matches the status
case-sensitively: exactly the strings `Qualified` and `Committed` trigger
downstream calls, and any other casing is a successful no-op. -/
theorem C10_lowercased_key_case_sensitive_processor :
    (∀ d1 d2 : CrmWebhookJobData, d1.event = d2.event → d1.reference = d2.reference →
      strToLower d1.payload.data.dealDetails.status = strToLower d2.payload.data.dealDetails.status →
      jobKey d1 = jobKey d2) ∧
    (∀ (beh : DispatcherBehavior) (job : CrmWebhookJobData),
      (job.event = "deal_created" ∨ job.event = "deal_updated") →
      job.payload.data.dealDetails.status ≠ "Qualified" →
      job.payload.data.dealDetails.status ≠ "Committed" →
      processCRMWebhook beh job = Except.ok []) ∧
    (∀ (beh : DispatcherBehavior) (reference : String) (payload : CrmWebhookPayload),
      payload.data.dealDetails.status = "Qualified" →
      processCRMWebhook beh { reference := reference, event := "deal_updated", payload := payload } =
        Except.ok [DownstreamAction.metaConversion "Lead"]) := by
  refine ⟨?_, ?_, ?_⟩
  · intro d1 d2 he hr hs
    unfold jobKey
    rw [he, hr, hs]
  · intro beh job hev h1 h2
    exact processCRMWebhook_unmapped beh job (by
      rintro ⟨-, hq | hc⟩
      · exact h1 hq
      · exact h2 hc)
  · intro beh reference payload hst
    simp [processCRMWebhook, handleDealUpdatedEvent, hst, processQualifiedDeal_ok]

/-- C10 witness: `QUALIFIED` and `Qualified` submissions share one job key,
yet the `QUALIFIED` job is a no-op while the `Qualified` job fires the
conversion call. -/
theorem C10_lowercased_key_case_sensitive_processor_witness :
    jobKey jobD1QualifiedUpper = jobKey jobD1Qualified ∧
    processCRMWebhook { metaFails := false, brevoFails := false } jobD1QualifiedUpper =
      Except.ok [] ∧
    processCRMWebhook { metaFails := false, brevoFails := false }
      { reference := "D-1", event := "deal_updated", payload := payloadWith "D-1" "Qualified" } =
      Except.ok [DownstreamAction.metaConversion "Lead"] :=
  ⟨C10_lowercased_key_case_sensitive_processor.1 jobD1QualifiedUpper jobD1Qualified rfl rfl
      (by decide),
   C10_lowercased_key_case_sensitive_processor.2.1 { metaFails := false, brevoFails := false }
      jobD1QualifiedUpper (Or.inl rfl) (by decide) (by decide),
   C10_lowercased_key_case_sensitive_processor.2.2 { metaFails := false, brevoFails := false }
      "D-1" (payloadWith "D-1" "Qualified") rfl⟩

/-! ## Claim theorems: gateway, receipts, lifecycle -/

/-- C1 counterexample: delivering reference `D-1` with status `Qualified` and
then with status `Committed` leaves exactly ONE job on the queue — keyed by
the first delivery — not two independently keyed jobs. -/
theorem C1_counterexample_single_job :
    stateAfterSecondDelivery.queue.length = 1 ∧
    stateAfterSecondDelivery.queue.map jobKey = ["deal_created_D-1_qualified"] := by
  decide

/-- C1 (amended): reference `D-1` delivered with status `Qualified` and later
with status `Committed` yields a single Job, carrying the originally stored
event and payload; the later delivery changes nothing because the Receipt is
already PROCESSED (and `handleWebhookRequest` always enqueues from the stored
Receipt, so a fresh key could not arise anyway); the single Job executes
successfully, firing the `Qualified` conversion call. -/
theorem C1_amended_single_job_executes :
    stateAfterSecondDelivery = stateAfterFirstDelivery ∧
    stateAfterSecondDelivery.queue = [jobD1Qualified] ∧
    (∀ (st : SystemState) (r : Receipt), (handleWebhookRequest st r).queue =
      enqueueCRMWebhookJob st.queue
        { reference := r.reference, event := r.event, payload := r.payloadBody }) ∧
    (∀ beh : DispatcherBehavior, workerStep beh stateAfterSecondDelivery =
      ({ stateAfterSecondDelivery with queue := [] },
        some (Except.ok [DownstreamAction.metaConversion "Lead"]))) := by
  refine ⟨by decide, by decide, fun st r => rfl, ?_⟩
  intro beh
  have hq : stateAfterSecondDelivery.queue = [jobD1Qualified] := by decide
  unfold workerStep
  rw [hq]
  simp [processCRMWebhook, jobD1Qualified, handleDealCreatedEvent, payloadWith,
    dealDetailsWith, processQualifiedDeal_ok]

/-- C2 counterexample: an inbound delivery whose `(provider, reference)`
receipt is already PROCESSED does NOT go through the provider's
`handleWebhookRequest`: the gateway answers 200 and the state — queue
included — is completely unchanged, whereas a `handle` invocation would have
enqueued a job onto the empty queue. -/
theorem C2_counterexample_handle_skipped :
    webhookControllerCreate "k" false stateWithProcessedD1
        (requestWith "k" "deal_updated" "D-1" "Committed") =
      (GatewayResult.ok200, stateWithProcessedD1) ∧
    stateWithProcessedD1.queue = [] := by
  decide

/-- C3 counterexample: after a single inbound delivery the Receipt is already
PROCESSED while its job still sits unconsumed on the queue — the Event
Processor has not run, yet the status is PROCESSED (set by the gateway right
after the enqueue). -/
theorem C3_counterexample_processed_before_worker :
    stateAfterFirstDelivery.receipts.map Receipt.status = [WebhookStatus.processed] ∧
    stateAfterFirstDelivery.queue.length = 1 := by
  decide

/-- C3 (amended): after creation, Receipt status transitions are made by the
GATEWAY based on the outcome of the provider's `handle` (the enqueue):
PROCESSED immediately after the enqueue call returns — before the Event
Processor has run — and FAILED when the enqueue throws; the Worker and the
Event Processor never change receipt statuses at all. -/
theorem C3_amended_gateway_owns_status :
    (∀ (beh : DispatcherBehavior) (st : SystemState),
      (workerStep beh st).1.receipts = st.receipts) ∧
    (stateAfterFirstDelivery.receipts.map Receipt.status = [WebhookStatus.processed] ∧
      stateAfterFirstDelivery.queue.length = 1) ∧
    ((webhookControllerCreate "k" true initialState
        (requestWith "k" "deal_created" "D-1" "Qualified")).2.receipts.map Receipt.status =
      [WebhookStatus.failed]) := by
  refine ⟨?_, by decide, by decide⟩
  intro beh st
  cases st with
  | mk receipts nextId queue => cases queue <;> rfl

/-- C2 (amended): when the `(provider, reference)` receipt already exists
with status PROCESSED, an authenticated, well-formed delivery is answered 200
but is NOT run through the provider's `handleWebhookRequest`: the whole state
— receipts and queue — is returned unchanged, so no job is enqueued and no
second Receipt is created. -/
theorem C2_amended_processed_skips_handle (cfgApiKey : String) (enqueueFails : Bool)
    (st : SystemState) (req : GatewayRequest) (event reference : String) (r : Receipt)
    (hprov : req.provider = "crm")
    (hval : validateWebhookRequest cfgApiKey req = true)
    (hev : getEventFromWebhookRequest req = Except.ok event)
    (href : getReferenceFromWebhookRequest req = Except.ok reference)
    (hfind : findOneReceipt st req.provider reference = some r)
    (hst : r.status = WebhookStatus.processed) :
    webhookControllerCreate cfgApiKey enqueueFails st req = (GatewayResult.ok200, st) := by
  obtain ⟨b, hb⟩ : ∃ b, req.body = some b := by
    cases hbody : req.body with
    | none => simp [getReferenceFromWebhookRequest, hbody] at href
    | some b => exact ⟨b, rfl⟩
  unfold webhookControllerCreate
  rw [hprov] at hfind
  simp only [hprov, hval, hev, hb, href, createWebhook, hfind, hst]
  simp

/-- C2 witness: concrete PROCESSED receipt for `D-1`; the follow-up delivery
is acknowledged with 200 and the state is untouched. -/
theorem C2_amended_processed_skips_handle_witness :
    webhookControllerCreate "k" false stateWithProcessedD1
        (requestWith "k" "deal_updated" "D-1" "Committed") =
      (GatewayResult.ok200, stateWithProcessedD1) :=
  C2_amended_processed_skips_handle "k" false stateWithProcessedD1
    (requestWith "k" "deal_updated" "D-1" "Committed") "deal_updated" "D-1"
    processedReceiptD1 rfl (by decide) rfl rfl (by decide) rfl

/-- Extraction via `getEventFromWebhookRequest` only ever fails with a 400. -/
theorem getEventFromWebhookRequest_error_code (req : GatewayRequest) (c : Nat)
    (h : getEventFromWebhookRequest req = Except.error c) : c = 400 := by
  cases hev : req.eventHeader with
  | none =>
      simp [getEventFromWebhookRequest, hev] at h
      omega
  | some e =>
      simp only [getEventFromWebhookRequest, hev] at h
      by_cases he : e = "" <;> simp [he] at h
      omega

/-- C9: an authenticated, provider-valid request lacking the event header or
the reference field is rejected with a 400 client error and nothing is
persisted: the state — receipts and queue — is returned unchanged, so no
Receipt is created and no Job is enqueued. -/
theorem C9_missing_field_rejected_nothing_persisted (cfgApiKey : String)
    (enqueueFails : Bool) (st : SystemState) (req : GatewayRequest)
    (hprov : req.provider = "crm")
    (hval : validateWebhookRequest cfgApiKey req = true)
    (hmiss : getEventFromWebhookRequest req = Except.error 400 ∨
             getReferenceFromWebhookRequest req = Except.error 400) :
    webhookControllerCreate cfgApiKey enqueueFails st req =
      (GatewayResult.clientError 400, st) := by
  rcases hmiss with hm | hm
  · simp [webhookControllerCreate, hprov, hval, hm]
  · cases hev : getEventFromWebhookRequest req with
    | error c =>
        have hc : c = 400 := getEventFromWebhookRequest_error_code req c hev
        subst hc
        simp [webhookControllerCreate, hprov, hval, hev]
    | ok e => simp [webhookControllerCreate, hprov, hval, hev, hm]

/-- C9 witness: a request with a valid key and event header but no body (so
no reference) is answered 400 and the empty deployment stays empty. -/
theorem C9_missing_field_rejected_nothing_persisted_witness :
    webhookControllerCreate "k" false initialState requestMissingReference =
      (GatewayResult.clientError 400, initialState) :=
  C9_missing_field_rejected_nothing_persisted "k" false initialState
    requestMissingReference rfl (by decide) (Or.inr rfl)

/-- A status update leaves the `(provider, reference)` identity of every
record unchanged. -/
theorem receiptMatches_setStatus (p ref : String) (id : Nat) (s : WebhookStatus)
    (r : Receipt) :
    receiptMatches p ref (if r.id == id then { r with status := s } else r) =
      receiptMatches p ref r := by
  by_cases h : r.id == id <;> simp [h, receiptMatches]

/-- A status write via `updateById` (as used for status transitions) preserves the receipt count
of every `(provider, reference)` pair. -/
theorem countFor_updateStatusById (st : SystemState) (id : Nat) (s : WebhookStatus)
    (p ref : String) :
    countFor (updateStatusById st id s) p ref = countFor st p ref := by
  unfold countFor updateStatusById
  rw [List.filter_map, List.length_map]
  congr 1
  refine List.filter_congr ?_
  intro r _
  exact receiptMatches_setStatus p ref id s r

/-- Enqueueing (the provider's `handle`) does not touch the receipt
collection. -/
theorem countFor_handleWebhookRequest (st : SystemState) (r : Receipt) (p ref : String) :
    countFor (handleWebhookRequest st r) p ref = countFor st p ref := rfl

/-- When `findOne({provider, reference})` misses, no record for that pair is
stored. -/
theorem countFor_eq_zero_of_findOne_none (st : SystemState) (p ref : String)
    (h : findOneReceipt st p ref = none) : countFor st p ref = 0 := by
  unfold findOneReceipt at h
  rw [List.find?_eq_none] at h
  unfold countFor
  rw [List.length_eq_zero, List.filter_eq_nil_iff]
  exact h

/-- Appending one record changes the count only of the pair it carries. -/
theorem countFor_append_receipt (st : SystemState) (r : Receipt) (n : Nat)
    (p ref : String) :
    countFor { st with receipts := st.receipts ++ [r], nextId := n } p ref =
      countFor st p ref + (if receiptMatches p ref r then 1 else 0) := by
  unfold countFor
  cases h : receiptMatches p ref r <;>
    simp [List.filter_append, List.filter, h]

/-- Effect of one gateway delivery on the receipt count of any
`(provider, reference)` pair: either unchanged, or a fresh pair going from
zero records to one. -/
theorem countFor_webhookControllerCreate (cfgApiKey : String) (ef : Bool)
    (st : SystemState) (req : GatewayRequest) (p ref : String) :
    countFor (webhookControllerCreate cfgApiKey ef st req).2 p ref = countFor st p ref ∨
    (countFor st p ref = 0 ∧
      countFor (webhookControllerCreate cfgApiKey ef st req).2 p ref = 1) := by
  unfold webhookControllerCreate
  split
  · exact Or.inl rfl
  split
  · exact Or.inl rfl
  split
  · exact Or.inl rfl
  next event hev =>
    split
    · exact Or.inl rfl
    next reference href =>
      split
      · exact Or.inl rfl
      next b hb =>
        cases hfind : findOneReceipt st req.provider reference with
        | some r =>
            simp only [createWebhook, hfind]
            split
            · split
              · exact Or.inl (countFor_updateStatusById st r.id WebhookStatus.failed p ref)
              · refine Or.inl ?_
                rw [countFor_updateStatusById, countFor_handleWebhookRequest]
            · exact Or.inl rfl
        | none =>
            simp only [createWebhook, hfind]
            split
            · split
              next hef =>
                rw [countFor_updateStatusById, countFor_append_receipt]
                by_cases hm : receiptMatches p ref
                    { id := st.nextId, provider := req.provider, event := event,
                      reference := reference, payloadBody := b,
                      status := WebhookStatus.pending }
                · refine Or.inr ?_
                  have hpr : req.provider = p ∧ reference = ref := by
                    unfold receiptMatches at hm
                    simp only [Bool.and_eq_true, beq_iff_eq] at hm
                    exact hm
                  have h0 : countFor st p ref = 0 := by
                    rw [← hpr.1, ← hpr.2]
                    exact countFor_eq_zero_of_findOne_none st req.provider reference hfind
                  simp [hm, h0]
                · simp [hm]
              next hef =>
                rw [countFor_updateStatusById, countFor_handleWebhookRequest,
                  countFor_append_receipt]
                by_cases hm : receiptMatches p ref
                    { id := st.nextId, provider := req.provider, event := event,
                      reference := reference, payloadBody := b,
                      status := WebhookStatus.pending }
                · refine Or.inr ?_
                  have hpr : req.provider = p ∧ reference = ref := by
                    unfold receiptMatches at hm
                    simp only [Bool.and_eq_true, beq_iff_eq] at hm
                    exact hm
                  have h0 : countFor st p ref = 0 := by
                    rw [← hpr.1, ← hpr.2]
                    exact countFor_eq_zero_of_findOne_none st req.provider reference hfind
                  simp [hm, h0]
                · simp [hm]
            next hcond =>
              exact absurd (Or.inl trivial) hcond

/-- C4: starting from the empty deployment, any sequence of inbound
deliveries leaves at most one Receipt per `(provider, reference)` pair; and a
single delivery either leaves a pair's receipt count unchanged (in
particular, a delivery matching an existing Receipt never creates a second
record — it at most updates the record in place) or creates the first record
of a previously unseen pair. -/
theorem C4_receipt_uniqueness :
    (∀ (cfgApiKey : String) (deliveries : List (Bool × GatewayRequest)) (p ref : String),
      countFor (runDeliveries cfgApiKey deliveries initialState) p ref ≤ 1) ∧
    (∀ (cfgApiKey : String) (ef : Bool) (st : SystemState) (req : GatewayRequest)
        (p ref : String),
      countFor (webhookControllerCreate cfgApiKey ef st req).2 p ref = countFor st p ref ∨
      (countFor st p ref = 0 ∧
        countFor (webhookControllerCreate cfgApiKey ef st req).2 p ref = 1)) := by
  have hstep : ∀ (cfgApiKey : String) (ef : Bool) (st : SystemState) (req : GatewayRequest)
      (p ref : String), countFor st p ref ≤ 1 →
      countFor (webhookControllerCreate cfgApiKey ef st req).2 p ref ≤ 1 := by
    intro cfgApiKey ef st req p ref hle
    rcases countFor_webhookControllerCreate cfgApiKey ef st req p ref with h | ⟨-, h⟩
    · rw [h]; exact hle
    · rw [h]
  refine ⟨?_, countFor_webhookControllerCreate⟩
  intro cfgApiKey deliveries p ref
  have : ∀ st : SystemState, countFor st p ref ≤ 1 →
      countFor (runDeliveries cfgApiKey deliveries st) p ref ≤ 1 := by
    induction deliveries with
    | nil => intro st h; exact h
    | cons d rest ih =>
        intro st h
        exact ih _ (hstep cfgApiKey d.1 st d.2 p ref h)
  exact this initialState (by simp [countFor, initialState])

end CrmEventHandler
